import Mathlib

set_option maxRecDepth 8000

/- Verification of the event aggregation, deduplication, scheduling and
   broadcast engine of bot.py (Giftkarimi Tech Events Bot).  Python dicts
   holding events are modelled by the Event structure; Python strings are
   modelled by Lean strings, with character-level helpers mirroring the
   character-based semantics of Python slicing, lower() and strip(). -/

/-- Events as every source adapter builds them: a dict with keys id, title,
date, url, source, rsvp (bot.py, for instance lines 186-193). -/
structure Event where
  id : String
  title : String
  date : String
  url : String
  source : String
  rsvp : Bool
deriving DecidableEq, Inhabited

/-- MIN_EVENTS configuration default (bot.py line 32). -/
def MIN_EVENTS : Nat := 10

/-- MAX_EVENTS configuration default (bot.py line 33). -/
def MAX_EVENTS : Nat := 15

/-- Character-level model of the Python str.lower() call.  The adapters only
rely on ASCII lowering (the keyword vocabulary is ASCII), which Char.toLower
implements; non-ASCII characters are left unchanged. -/
def lowerStr (s : String) : String := String.mk (s.toList.map Char.toLower)

/-- Whitespace test used to model Python str.strip(). -/
def isSpaceCh (c : Char) : Bool := c == ' ' || c == '\t' || c == '\n' || c == '\r'

/-- Character-level model of Python str.strip(). -/
def stripStr (s : String) : String :=
  String.mk (((s.toList.dropWhile isSpaceCh).reverse.dropWhile isSpaceCh).reverse)

/-- Character-level model of the Python slice s[:n]. -/
def takeStr (s : String) (n : Nat) : String := String.mk (s.toList.take n)

/-- Model of a single-character replacement such as s.replace of the string T
by a space, used on date strings (bot.py line 189). -/
def replCh (s : String) (a b : Char) : String :=
  String.mk (s.toList.map (fun c => if c == a then b else c))

/-- listLead pat s is true when pat is a leading segment of s. -/
def listLead : List Char → List Char → Bool
  | [], _ => true
  | _ :: _, [] => false
  | a :: as, b :: bs => a == b && listLead as bs

/-- hasSubstr hay needle models the Python membership test of needle in the
string hay. -/
def hasSubstr : List Char → List Char → Bool
  | [], needle => needle.isEmpty
  | h :: t, needle => listLead needle (h :: t) || hasSubstr t needle

/-- String version of hasSubstr. -/
def strHas (hay needle : String) : Bool := hasSubstr hay.toList needle.toList

/-- TECH_KEYWORDS (bot.py lines 134-140). -/
def TECH_KEYWORDS : List String :=
  ["tech", "ai", "python", "javascript", "web", "data", "cloud", "code",
   "developer", "software", "machine learning", "startup", "devops",
   "cybersecurity", "blockchain", "ux", "design", "product", "programming",
   "react", "node", "flutter", "mobile", "api", "database", "open source",
   "hackathon", "bootcamp", "workshop", "webinar", "engineering"]

/-- is_tech (bot.py lines 142-143): some keyword occurs in the lowered title. -/
def is_tech (title : String) : Bool :=
  TECH_KEYWORDS.any (fun k => strHas (lowerStr title) k)

/-- Normalized title key used by the fallback padding step (bot.py line 540):
lower the title, strip it, keep the first 60 characters. -/
def normKey (title : String) : String := takeStr (stripStr (lowerStr title)) 60

/-- The dedup loop of get_all_events (bot.py lines 529-534): keep an event
when its url was not seen before and its title is non-empty (Python truthiness
of the title string); the url is then recorded in the seen set. -/
def dedupUrl : List Event → List String → List Event
  | [], _ => []
  | e :: rest, seen =>
    if e.url ∉ seen ∧ e.title ≠ "" then e :: dedupUrl rest (e.url :: seen)
    else dedupUrl rest seen

/-- get_curated_events (bot.py lines 359-462).  The date strings are produced
from the current day; the parameter fmtDate n stands for the strftime of
today plus a timedelta of n days in the source. -/
def get_curated_events (fmtDate : Nat → String) : List Event :=
  [ { id := "cur_1", title := "Google for Developers Events 🟢 Google Meet",
      date := fmtDate 1, url := "https://developers.google.com/community/events",
      source := "Google Developers", rsvp := true },
    { id := "cur_2", title := "Google Cloud Online Events 🟢 Google Meet",
      date := fmtDate 2, url := "https://cloud.google.com/events",
      source := "Google Cloud", rsvp := true },
    { id := "cur_3", title := "AWS Free Online Tech Talks — Register Now",
      date := fmtDate 2, url := "https://aws.amazon.com/events/online-tech-talks/",
      source := "AWS", rsvp := true },
    { id := "cur_4", title := "Microsoft Reactor Live Events — Free RSVP",
      date := fmtDate 1, url := "https://developer.microsoft.com/en-us/reactor/",
      source := "Microsoft", rsvp := true },
    { id := "cur_5", title := "freeCodeCamp Live Sessions — Free Registration",
      date := fmtDate 3, url := "https://www.freecodecamp.org/news/tag/events/",
      source := "freeCodeCamp", rsvp := true },
    { id := "cur_6", title := "CNCF Webinars — Free Cloud Native Events",
      date := fmtDate 3, url := "https://community.cncf.io/events/",
      source := "CNCF", rsvp := true },
    { id := "cur_7", title := "GitHub Online Events — Free Developer Sessions",
      date := fmtDate 4, url := "https://resources.github.com/events/",
      source := "GitHub", rsvp := true },
    { id := "cur_8", title := "PyData Online Meetups — Free RSVP",
      date := fmtDate 5, url := "https://www.meetup.com/pro/pydata/",
      source := "PyData", rsvp := true },
    { id := "cur_9", title := "Women in Tech Summit — Free Online Events",
      date := fmtDate 4, url := "https://womenintechsummit.net/events/",
      source := "WIT Summit", rsvp := true },
    { id := "cur_10", title := "Linux Foundation Free Webinars — Register",
      date := fmtDate 6, url := "https://events.linuxfoundation.org/",
      source := "Linux Foundation", rsvp := true },
    { id := "cur_11", title := "Hashicorp DevOps Events — Free Online RSVP",
      date := fmtDate 5, url := "https://www.hashicorp.com/events",
      source := "HashiCorp", rsvp := true },
    { id := "cur_12", title := "DevOps Days Community Events — Free Registration",
      date := fmtDate 7, url := "https://devopsdays.org/events/",
      source := "DevOpsDays", rsvp := true } ]

/-- The padding loop of get_all_events (bot.py lines 541-545): append each
curated event whose normalized title key is not already present, recording
the key as it goes. -/
def padCurated : List Event → List String → List Event
  | [], _ => []
  | e :: rest, seen =>
    if normKey e.title ∈ seen then padCurated rest seen
    else e :: padCurated rest (normKey e.title :: seen)

/-- Number of curated entries the padding loop appends: catalog entries whose
normalized key is fresh, counted with in-catalog dedup. -/
def fallbackAvailable : List Event → List String → Nat
  | [], _ => 0
  | e :: rest, seen =>
    if normKey e.title ∈ seen then fallbackAvailable rest seen
    else fallbackAvailable rest (normKey e.title :: seen) + 1

/-- Normalized keys of the deduplicated live list (bot.py line 540). -/
def liveKeys (unique : List Event) : List String :=
  unique.map (fun e => normKey e.title)

/-- get_all_events (bot.py lines 504-548) as a function of the merged adapter
outputs: dedup by url, then pad from the curated catalog when the unique
count is below MIN_EVENTS. -/
def get_all_events (fmtDate : Nat → String) (all_events : List Event) : List Event :=
  let unique := dedupUrl all_events []
  if unique.length < MIN_EVENTS then
    unique ++ padCurated (get_curated_events fmtDate) (liveKeys unique)
  else unique

/-- Sample date formatter used by the concrete counterexamples. -/
def exFmt : Nat → String := fun n => toString n

/-- Two merged-list events with the same title but different urls and ids,
as two providers listing the same real-world event would produce. -/
def dupA : Event :=
  { id := "luma_a1", title := "Kenya AI Summit", date := "2026-10-13 09:00",
    url := "https://lu.ma/aaa", source := "Luma", rsvp := true }

/-- Second listing of the same real-world event, under another provider. -/
def dupB : Event :=
  { id := "eb_b2", title := "Kenya AI Summit", date := "2026-10-13 09:00",
    url := "https://www.eventbrite.com/e/bbb", source := "Eventbrite", rsvp := true }

/-- filterUnseen (bot.py line 584): keep the events whose id is not in the
persisted sent_ids set. -/
def filterUnseen (sent_ids : List String) (events : List Event) : List Event :=
  events.filter (fun e => !sent_ids.contains e.id)

/-- Model of the Python set update sent_ids.update of the ids of to_send
(bot.py line 600): add each id not already present. -/
def updateSent (sent_ids : List String) (to_send : List Event) : List String :=
  to_send.foldl (fun acc e => if acc.contains e.id then acc else acc ++ [e.id]) sent_ids

/-- The per-subscriber dispatch loop (bot.py lines 592-597), counting
successes and failures; deliverOk c models the boolean result of
send_message for chat c. -/
def send_loop (deliverOk : Nat → Bool) (subs : List Nat) : Nat × Nat :=
  subs.foldl (fun p c => if deliverOk c then (p.1 + 1, p.2) else (p.1, p.2 + 1)) (0, 0)

/-- Result of one broadcast cycle: the list sent, the persisted ledger after
the cycle, and the dispatch counters (bot.py line 604). -/
structure CycleResult where
  toSend : List Event
  ledger : List String
  sent : Nat
  failed : Nat
deriving DecidableEq

/-- broadcast_events (bot.py lines 570-604) as a function of the subscriber
list, the dispatch outcomes, the persisted sent_ids ledger, the collected
events and the force flag.  With no subscribers the function returns early
and touches nothing.  Otherwise: the force path skips filterUnseen; the
non-forced path filters, falls back to the full list when the unseen count
is below MIN_EVENTS, truncates to MAX_EVENTS, dispatches, and updates the
ledger only when force is false. -/
def broadcast_events (subs : List Nat) (deliverOk : Nat → Bool)
    (sent_ids : List String) (all_events : List Event) (force : Bool) : CycleResult :=
  if subs = [] then { toSend := [], ledger := sent_ids, sent := 0, failed := 0 }
  else
    let new0 := if force then all_events else filterUnseen sent_ids all_events
    let new1 := if new0.length < MIN_EVENTS ∧ force = false then all_events else new0
    let to_send := new1.take MAX_EVENTS
    { toSend := to_send
    , ledger := if force then sent_ids else updateSent sent_ids to_send
    , sent := (send_loop deliverOk subs).1
    , failed := (send_loop deliverOk subs).2 }

/-- Daily-mode poll tick inputs: the date string of the tick and the minutes
since midnight in the Nairobi timezone (bot.py lines 979-982). -/
structure Tick where
  day : String
  nowTotal : Nat
deriving DecidableEq

/-- One daily-mode poll tick (bot.py lines 984-987): fire when the current
minute count has reached the send time and the persisted last_sent_day is
not today; on fire, the marker becomes today. -/
def daily_tick (sndTotal : Nat) (t : Tick) (lastSentDay : Option String) : Bool × Option String :=
  if sndTotal ≤ t.nowTotal ∧ lastSentDay ≠ some t.day then (true, some t.day)
  else (false, lastSentDay)

/-- Run a sequence of daily-mode poll ticks from a persisted marker, counting
the broadcast cycles invoked and returning the final marker.  The marker
threading models the save_last_run write read back by the next tick. -/
def run_ticks (sndTotal : Nat) : List Tick → Option String → Nat × Option String
  | [], s => (0, s)
  | t :: ts, s =>
    let fire := daily_tick sndTotal t s
    let rest := run_ticks sndTotal ts fire.2
    ((if fire.1 = true then 1 else 0) + rest.1, rest.2)

/-- Interval-mode step (bot.py lines 964-973): when the wait has elapsed the
scheduler invokes broadcast_events with force set to true and persists the
current epoch; otherwise nothing happens. -/
def interval_step (intervalMins : Int) (subs : List Nat) (deliverOk : Nat → Bool)
    (sent_ids : List String) (all_events : List Event) (lastTs nowTs : Int) :
    Option CycleResult × Int :=
  if lastTs + intervalMins * 60 - nowTs ≤ 0 then
    (some (broadcast_events subs deliverOk sent_ids all_events true), nowTs)
  else (none, lastTs)

/-- Observable steps of a fired cycle, in execution order: the aggregator
collect call, one dispatch per subscriber, the sent_ids ledger write, and
the scheduler marker write. -/
inductive Step where
  | collect : Step
  | dispatch : Nat → Step
  | ledgerWrite : Step
  | markerWrite : Step
deriving DecidableEq

/-- Ordered trace of broadcast_events (bot.py lines 570-604): collect, then
one dispatch per subscriber, then (unless forced) the sent_ids write; with
no subscribers the function returns before collecting. -/
def broadcast_trace (subs : List Nat) (force : Bool) : List Step :=
  if subs = [] then []
  else Step.collect :: (subs.map Step.dispatch ++ if force then [] else [Step.ledgerWrite])

/-- Ordered trace of a fired daily-mode cycle (bot.py lines 984-987): the
scheduler runs broadcast_events to completion and only then calls
save_last_run with the day marker. -/
def daily_fire_trace (subs : List Nat) : List Step :=
  broadcast_trace subs false ++ [Step.markerWrite]

/-- Position of the first occurrence of a step in a trace. -/
def posOf (s : Step) : List Step → Nat
  | [] => 0
  | t :: ts => if t = s then 0 else posOf s ts + 1

/-- String constant: the marker of a Google Meet link. -/
def MEET_GOOGLE : String := "meet.google"

/-- String constant: the phrase google meet searched in descriptions. -/
def GOOGLE_MEET_TXT : String := "google meet"

/-- String constant: the zoom.us marker. -/
def ZOOM_US : String := "zoom.us"

/-- String constant: the zoom marker. -/
def ZOOM_TXT : String := "zoom"

/-- String constant: the teams marker. -/
def TEAMS_TXT : String := "teams"

/-- String constant: the googleMeet venue type of Meetup. -/
def GOOGLE_MEET_TYPE : String := "googleMeet"

/-- Label appended to Google Meet events. -/
def GMEET_LABEL : String := " 🟢 Google Meet"

/-- Label appended to Zoom events. -/
def ZOOM_LABEL : String := " 🔵 Zoom"

/-- Label appended to MS Teams events. -/
def TEAMS_LABEL : String := " 🔷 MS Teams"

/-- Sentinel date of Luma events without a start time. -/
def SEE_LINK : String := "See link"

/-- Sentinel date of listing events. -/
def SEE_LINK_DATE : String := "See link for date"

/-- Base of the Luma event urls. -/
def LUMA_URL_BASE : String := "https://lu.ma/"

/-- Base of the Dev.to listing urls. -/
def DEVTO_BASE : String := "https://dev.to"

/-- One entry of a Luma search response (bot.py lines 163-180), with the
fields the adapter reads; absent keys are the empty string as the Python
dict.get defaults produce. -/
structure LumaEntry where
  api_id : String
  name : String
  url : String
  start_at : String
  zoom_join_url : String
  meeting_url : String
deriving DecidableEq

/-- Platform label detection of the Luma adapter (bot.py lines 177-184). -/
def luma_platform (e : LumaEntry) : String :=
  if e.meeting_url ≠ "" ∧ strHas e.meeting_url MEET_GOOGLE = true then GMEET_LABEL
  else if e.zoom_join_url ≠ "" then ZOOM_LABEL
  else ""

/-- Date field of a Luma event (bot.py line 189): first 16 characters with T
replaced by a space, or the see-link sentinel when start_at is empty. -/
def luma_date (start : String) : String :=
  if start = "" then SEE_LINK else replCh (takeStr start 16) 'T' ' '

/-- The event record the Luma adapter appends (bot.py lines 186-193), given
the stripped title. -/
def luma_event (item : LumaEntry) (title : String) : Event :=
  { id := "luma_" ++ item.api_id
  , title := title ++ luma_platform item
  , date := luma_date item.start_at
  , url := LUMA_URL_BASE ++ item.url
  , source := "Luma"
  , rsvp := true }

/-- The per-entry loop of the Luma adapter (bot.py lines 163-193): skip
entries with an empty stripped title, an empty url or an already-seen id;
skip entries failing is_tech; otherwise record the id and append the event.
Returns the events produced and the updated seen-id set. -/
def luma_process (seen : List String) : List LumaEntry → List Event × List String
  | [] => ([], seen)
  | item :: rest =>
    let title := stripStr item.name
    if title = "" ∨ item.url = "" ∨ item.api_id ∈ seen then
      luma_process seen rest
    else if is_tech title = false then
      luma_process seen rest
    else
      let r := luma_process (item.api_id :: seen) rest
      (luma_event item title :: r.1, r.2)

/-- Outcome of one provider request in an adapter: the request raised, the
response was not ok, the body failed to parse (or the schema did not match),
or a parsed payload was obtained. -/
inductive QueryRes (α : Type) where
  | raised : QueryRes α
  | notOk : QueryRes α
  | badJson : QueryRes α
  | ok : α → QueryRes α

/-- Model of a Python try/except block over a fallible body: an exception in
the body is replaced by the handler result. -/
def catchE {α : Type} (x : Except Unit α) (h : Unit → Except Unit α) : Except Unit α :=
  match x with
  | .ok a => .ok a
  | .error e => h e

/-- Body of one Luma query iteration (bot.py lines 155-163): a raised request
or a bad body is an exception; a not-ok response just contributes nothing. -/
def luma_query (seen : List String) (q : QueryRes (List LumaEntry)) :
    Except Unit (List Event × List String) :=
  match q with
  | .raised => .error ()
  | .notOk => .ok ([], seen)
  | .badJson => .error ()
  | .ok entries => .ok (luma_process seen entries)

/-- The query loop of the Luma adapter (bot.py lines 154-195): each query
body runs under an inner try whose except clause continues the loop. -/
def luma_loop (seen : List String) : List (QueryRes (List LumaEntry)) → List Event
  | [] => []
  | q :: qs =>
    match catchE (luma_query seen q) (fun _ => .ok ([], seen)) with
    | .ok r => r.1 ++ luma_loop r.2 qs
    | .error _ => luma_loop seen qs

/-- get_luma_events (bot.py lines 147-201): the whole body runs under an
outer try whose except clause returns the empty list. -/
def get_luma_events (qs : List (QueryRes (List LumaEntry))) : Except Unit (List Event) :=
  catchE (.ok (luma_loop [] qs)) (fun _ => .ok [])

/-- One entry of an Eventbrite response (bot.py lines 225-247). -/
structure EbEntry where
  id : String
  name_text : String
  desc_text : String
  start_local : String
  url : String
deriving DecidableEq

/-- Platform label detection of the Eventbrite adapter (bot.py lines
230-238), over the lowered description text. -/
def eb_platform (descLower : String) : String :=
  if strHas descLower MEET_GOOGLE = true ∨ strHas descLower GOOGLE_MEET_TXT = true then GMEET_LABEL
  else if strHas descLower ZOOM_US = true ∨ strHas descLower ZOOM_TXT = true then ZOOM_LABEL
  else if strHas descLower TEAMS_TXT = true then TEAMS_LABEL
  else ""

/-- The event record the Eventbrite adapter appends (bot.py lines 240-247). -/
def eb_event (e : EbEntry) : Event :=
  { id := "eb_" ++ e.id
  , title := e.name_text ++ eb_platform (lowerStr e.desc_text)
  , date := replCh (takeStr e.start_local 16) 'T' ' '
  , url := e.url, source := "Eventbrite", rsvp := true }

/-- The per-entry loop of the Eventbrite adapter (bot.py lines 225-247):
keep the entries whose title passes is_tech. -/
def eb_process : List EbEntry → List Event
  | [] => []
  | e :: rest => if is_tech e.name_text = true then eb_event e :: eb_process rest else eb_process rest

/-- Body of get_eventbrite_events (bot.py lines 208-248): a raised request,
a raise_for_status on a not-ok response, or a bad body is an exception. -/
def eb_body (q : QueryRes (List EbEntry)) : Except Unit (List Event) :=
  match q with
  | .raised => .error ()
  | .notOk => .error ()
  | .badJson => .error ()
  | .ok entries => .ok (eb_process entries)

/-- get_eventbrite_events (bot.py lines 205-252): early empty return without
a token, otherwise the body under a try whose except returns the empty list. -/
def get_eventbrite_events (token : String) (q : QueryRes (List EbEntry)) :
    Except Unit (List Event) :=
  if token = "" then .ok []
  else catchE (eb_body q) (fun _ => .ok [])

/-- One node of a Meetup response (bot.py lines 285-308); the venue fields
default to the empty string when onlineVenue is absent. -/
structure MuEntry where
  id : String
  title : String
  dateTime : String
  eventUrl : String
  venue_url : String
  venue_type : String
deriving DecidableEq

/-- Platform label detection of the Meetup adapter (bot.py lines 293-300). -/
def mu_platform (e : MuEntry) : String :=
  if strHas e.venue_url MEET_GOOGLE = true ∨ e.venue_type = GOOGLE_MEET_TYPE then GMEET_LABEL
  else if strHas e.venue_url ZOOM_TXT = true then ZOOM_LABEL
  else ""

/-- The per-node loop of the Meetup adapter (bot.py lines 286-309): skip
empty or already-seen ids, otherwise record the id and append the event.
Note: this adapter applies no is_tech check. -/
def mu_process (seen : List String) : List MuEntry → List Event × List String
  | [] => ([], seen)
  | n :: rest =>
    if n.id = "" ∨ n.id ∈ seen then mu_process seen rest
    else
      let r := mu_process (n.id :: seen) rest
      ({ id := "mu_" ++ n.id
       , title := n.title ++ mu_platform n
       , date := replCh (takeStr n.dateTime 16) 'T' ' '
       , url := n.eventUrl, source := "Meetup", rsvp := true } :: r.1, r.2)

/-- Body of one Meetup query iteration (bot.py lines 277-285). -/
def mu_query (seen : List String) (q : QueryRes (List MuEntry)) :
    Except Unit (List Event × List String) :=
  match q with
  | .raised => .error ()
  | .notOk => .ok ([], seen)
  | .badJson => .error ()
  | .ok nodes => .ok (mu_process seen nodes)

/-- The query loop of the Meetup adapter (bot.py lines 263-311), with the
inner try whose except clause continues. -/
def mu_loop (seen : List String) : List (QueryRes (List MuEntry)) → List Event
  | [] => []
  | q :: qs =>
    match catchE (mu_query seen q) (fun _ => .ok ([], seen)) with
    | .ok r => r.1 ++ mu_loop r.2 qs
    | .error _ => mu_loop seen qs

/-- get_meetup_events (bot.py lines 256-317): the body under an outer try
whose except clause returns the empty list. -/
def get_meetup_events (qs : List (QueryRes (List MuEntry))) : Except Unit (List Event) :=
  catchE (.ok (mu_loop [] qs)) (fun _ => .ok [])

/-- One item of a Dev.to listings response (bot.py lines 330-350). -/
structure DevtoEntry where
  id : String
  title : String
  body_markdown : String
  path : String
deriving DecidableEq

/-- Platform label detection of the Dev.to adapter (bot.py lines 336-341). -/
def devto_platform (bodyLower : String) : String :=
  if strHas bodyLower MEET_GOOGLE = true ∨ strHas bodyLower GOOGLE_MEET_TXT = true then GMEET_LABEL
  else if strHas bodyLower ZOOM_TXT = true then ZOOM_LABEL
  else ""

/-- The per-item loop of the Dev.to adapter (bot.py lines 330-350): skip
items with an empty stripped title or failing is_tech. -/
def devto_process : List DevtoEntry → List Event
  | [] => []
  | it :: rest =>
    let title := stripStr it.title
    if title = "" ∨ is_tech title = false then devto_process rest
    else
      { id := "devto_" ++ it.id
      , title := title ++ devto_platform (lowerStr it.body_markdown)
      , date := SEE_LINK_DATE
      , url := DEVTO_BASE ++ it.path, source := "Dev.to", rsvp := true } :: devto_process rest

/-- Body of get_devto_events (bot.py lines 323-351). -/
def devto_body (q : QueryRes (List DevtoEntry)) : Except Unit (List Event) :=
  match q with
  | .raised => .error ()
  | .notOk => .error ()
  | .badJson => .error ()
  | .ok items => .ok (devto_process items)

/-- get_devto_events (bot.py lines 321-355): the body under a try whose
except clause returns the empty list. -/
def get_devto_events (q : QueryRes (List DevtoEntry)) : Except Unit (List Event) :=
  catchE (devto_body q) (fun _ => .ok [])

/-- One item of an RSS channel (bot.py lines 477-489). -/
structure RssItem where
  title : String
  link : String
deriving DecidableEq

/-- The per-item loop of fetch_rss_events (bot.py lines 477-489); hashF
stands for the Python hash of the link. -/
def rss_go (hashF : String → Nat) (source : String) : List RssItem → List Event
  | [] => []
  | it :: rest =>
    let title := stripStr it.title
    let link := stripStr it.link
    if title = "" ∨ link = "" then rss_go hashF source rest
    else if is_tech title = false then rss_go hashF source rest
    else
      { id := "rss_" ++ toString (hashF link % 999999)
      , title := title, date := SEE_LINK_DATE
      , url := link, source := source, rsvp := true } :: rss_go hashF source rest

/-- Body of fetch_rss_events (bot.py lines 471-490): raised request, bad
status, unparseable xml or a missing channel element is an exception;
otherwise the first 20 items are processed. -/
def rss_body (hashF : String → Nat) (source : String) (q : QueryRes (List RssItem)) :
    Except Unit (List Event) :=
  match q with
  | .raised => .error ()
  | .notOk => .error ()
  | .badJson => .error ()
  | .ok items => .ok (rss_go hashF source (items.take 20))

/-- fetch_rss_events (bot.py lines 469-493): the body under a try whose
except clause returns the empty list. -/
def fetch_rss_events (hashF : String → Nat) (source : String)
    (q : QueryRes (List RssItem)) : Except Unit (List Event) :=
  catchE (rss_body hashF source q) (fun _ => .ok [])

/-- The fan-out gathering loop of get_all_events (bot.py lines 517-527): each
future result is consumed under a try: a source whose result is an exception
contributes nothing, the rest extend the merged list. -/
def gather : List (Except Unit (List Event)) → List Event
  | [] => []
  | Except.ok l :: rest => l ++ gather rest
  | Except.error _ :: rest => gather rest

/-- Modelled from the spec: the ASCII-or-mostly-Latin language heuristic the
spec attributes to every adapter — a title passes when more than 85 percent
of its characters have codepoints below 1000.  No such check exists in
bot.py; this definition follows the words of the spec only, to be compared
with the adapter code. -/
def latin_heuristic (title : String) : Bool :=
  let cs := title.toList
  85 * cs.length < 100 * (cs.filter (fun c => c.toNat < 1000)).length

/-- Luma entry whose title is mostly Cyrillic yet contains the keyword AI,
so is_tech accepts it while the spec heuristic rejects it. -/
def cyrEntry : LumaEntry :=
  { api_id := "ev777", name := "AI семинар по нейросетям и машинному обучению",
    url := "cyr-seminar", start_at := "", zoom_join_url := "", meeting_url := "" }

/-- Ledger used by the broadcast witnesses. -/
def wSent : List String := ["luma_a1"]

/-- Day string used by the scheduler witnesses. -/
def exDay : String := "2026-10-12"

/-- Two poll ticks past a send time of 08:00 on the same day. -/
def wTicks : List Tick :=
  [{ day := exDay, nowTotal := 485 }, { day := exDay, nowTotal := 505 }]

/-- Every event kept by the dedup loop has a url outside the seen set. -/
theorem dedupUrl_mem_url (l : List Event) (seen : List String) :
    ∀ e ∈ dedupUrl l seen, e.url ∉ seen := by
  induction l generalizing seen with
  | nil => intro e he; simp [dedupUrl] at he
  | cons a rest ih =>
    intro e he
    by_cases h : a.url ∉ seen ∧ a.title ≠ ""
    · rw [dedupUrl, if_pos h] at he
      rcases List.mem_cons.mp he with rfl | he'
      · exact h.1
      · intro hc
        exact ih (a.url :: seen) e he' (List.mem_cons_of_mem _ hc)
    · rw [dedupUrl, if_neg h] at he
      exact ih seen e he
  

/-- The dedup loop output has pairwise distinct urls. -/
theorem dedupUrl_pairwise (l : List Event) (seen : List String) :
    (dedupUrl l seen).Pairwise (fun a b => a.url ≠ b.url) := by
  induction l generalizing seen with
  | nil => simp [dedupUrl]
  | cons a rest ih =>
    by_cases h : a.url ∉ seen ∧ a.title ≠ ""
    · rw [dedupUrl, if_pos h]
      refine List.Pairwise.cons ?_ (ih _)
      intro b hb hab
      exact dedupUrl_mem_url rest (a.url :: seen) b hb (List.mem_cons.mpr (Or.inl hab.symm))
    · rw [dedupUrl, if_neg h]
      exact ih _

/-- Every event the padding loop appends has a key outside the seen set. -/
theorem padCurated_fresh (cat : List Event) (seen : List String) :
    ∀ e ∈ padCurated cat seen, normKey e.title ∉ seen := by
  induction cat generalizing seen with
  | nil => intro e he; simp [padCurated] at he
  | cons a rest ih =>
    intro e he
    by_cases h : normKey a.title ∈ seen
    · rw [padCurated, if_pos h] at he
      exact ih seen e he
    · rw [padCurated, if_neg h] at he
      rcases List.mem_cons.mp he with rfl | he'
      · exact h
      · intro hc
        exact ih (normKey a.title :: seen) e he' (List.mem_cons_of_mem _ hc)

/-- The padding loop appends exactly the fresh-key catalog entries. -/
theorem padCurated_length (cat : List Event) (seen : List String) :
    (padCurated cat seen).length = fallbackAvailable cat seen := by
  induction cat generalizing seen with
  | nil => rfl
  | cons a rest ih =>
    by_cases h : normKey a.title ∈ seen
    · rw [padCurated, if_pos h, fallbackAvailable, if_pos h]
      exact ih seen
    · rw [padCurated, if_neg h, fallbackAvailable, if_neg h]
      simp [ih]

/-- Unfolding of get_all_events: the deduplicated live list followed by the
padding, present exactly when the live count is short. -/
theorem get_all_events_eq (fmtDate : Nat → String) (l : List Event) :
    get_all_events fmtDate l =
      dedupUrl l [] ++
        (if (dedupUrl l []).length < MIN_EVENTS then
          padCurated (get_curated_events fmtDate) (liveKeys (dedupUrl l [])) else []) := by
  rw [get_all_events]
  by_cases h : (dedupUrl l []).length < MIN_EVENTS
  · simp [h]
  · simp [h]

/-- Claim C1, counterexample: the merged list holding two distinct events
with equal normalized-title keys yields an aggregator output in which both
occur — the later duplicate is not dropped, so dedup is not keyed on the
normalized title. -/
theorem c1_counterexample :
    normKey dupA.title = normKey dupB.title
    ∧ dupA ≠ dupB
    ∧ dupA ∈ get_all_events exFmt [dupA, dupB]
    ∧ dupB ∈ get_all_events exFmt [dupA, dupB] := by decide

/-- Claim C1, amended: deduplication of the merged adapter outputs is keyed
on the event url — first occurrence per url wins and events with empty
titles are dropped — while the normalized lowercase, trimmed, 60-character
title key is used only to filter the fallback-catalog padding against the
already-collected list. -/
theorem c1_dedup_by_url (fmtDate : Nat → String) (l : List Event) :
    (dedupUrl l []).Pairwise (fun a b => a.url ≠ b.url)
    ∧ (padCurated (get_curated_events fmtDate) (liveKeys (dedupUrl l []))).all
        (fun e => !(liveKeys (dedupUrl l [])).contains (normKey e.title)) = true
    ∧ get_all_events fmtDate l =
        dedupUrl l [] ++
          (if (dedupUrl l []).length < MIN_EVENTS then
            padCurated (get_curated_events fmtDate) (liveKeys (dedupUrl l [])) else []) := by
  refine ⟨dedupUrl_pairwise l [], ?_, get_all_events_eq fmtDate l⟩
  rw [List.all_eq_true]
  intro e he
  have h := padCurated_fresh (get_curated_events fmtDate) (liveKeys (dedupUrl l [])) e he
  simpa using h

/-- Claim C6: minimum-output guarantee — with the MIN_EVENTS default of 10,
for every merged list the aggregator output length is at least the minimum
of 10 and the unique live count plus the fallback entries available after
dedup, whatever subsets the sources contributed. -/
theorem c6_minimum_guarantee (fmtDate : Nat → String) (l : List Event) :
    MIN_EVENTS = 10 ∧
    min 10 ((dedupUrl l []).length
        + fallbackAvailable (get_curated_events fmtDate) (liveKeys (dedupUrl l [])))
      ≤ (get_all_events fmtDate l).length := by
  refine ⟨rfl, ?_⟩
  rw [get_all_events_eq]
  by_cases h : (dedupUrl l []).length < MIN_EVENTS
  · rw [if_pos h, List.length_append, padCurated_length]
    exact min_le_right _ _
  · rw [if_neg h, List.length_append]
    have h10 : 10 ≤ (dedupUrl l []).length := le_of_not_lt h
    calc min 10 _ ≤ 10 := min_le_left _ _
      _ ≤ (dedupUrl l []).length := h10
      _ ≤ _ := Nat.le_add_right _ _

/-- Claim C7, counterexample: with no live events the aggregator appends all
12 fresh-key catalog entries, ending above MIN_EVENTS — the padding loop
does not stop once the running count reaches the minimum. -/
theorem c7_counterexample :
    (get_all_events exFmt []).length = 12
    ∧ MIN_EVENTS < (get_all_events exFmt []).length := by decide

/-- Claim C7, amended: when the deduplicated live count is below MIN_EVENTS,
the aggregator appends every fallback-catalog entry whose normalized-title
key is not already present — padding ends only when the catalog is
exhausted, not when the running count reaches the minimum. -/
theorem c7_pads_whole_catalog (fmtDate : Nat → String) (l : List Event)
    (h : (dedupUrl l []).length < MIN_EVENTS) :
    (get_all_events fmtDate l).length =
      (dedupUrl l []).length
        + fallbackAvailable (get_curated_events fmtDate) (liveKeys (dedupUrl l [])) := by
  rw [get_all_events_eq, if_pos h, List.length_append, padCurated_length]

/-- Witness for the amended claim C7 at the empty merged list. -/
theorem c7_pads_whole_catalog_witness :
    (dedupUrl [] []).length < MIN_EVENTS
    ∧ (get_all_events exFmt []).length =
        (dedupUrl [] []).length
          + fallbackAvailable (get_curated_events exFmt) (liveKeys (dedupUrl [] [])) :=
  ⟨by decide, c7_pads_whole_catalog exFmt [] (by decide)⟩

/-- A forced cycle leaves the persisted ledger untouched, with or without
subscribers. -/
theorem broadcast_force_ledger (subs : List Nat) (deliverOk : Nat → Bool)
    (sent_ids : List String) (all_events : List Event) :
    (broadcast_events subs deliverOk sent_ids all_events true).ledger = sent_ids := by
  by_cases h : subs = [] <;> simp [broadcast_events, h]

/-- A forced cycle with subscribers sends the full collected list truncated
to MAX_EVENTS, whatever the ledger holds. -/
theorem broadcast_force_toSend (subs : List Nat) (deliverOk : Nat → Bool)
    (sent_ids : List String) (all_events : List Event) (h : subs ≠ []) :
    (broadcast_events subs deliverOk sent_ids all_events true).toSend =
      all_events.take MAX_EVENTS := by
  simp [broadcast_events, h]

/-- With no subscribers the cycle sends nothing. -/
theorem broadcast_empty_toSend (deliverOk : Nat → Bool)
    (sent_ids : List String) (all_events : List Event) (force : Bool) :
    (broadcast_events [] deliverOk sent_ids all_events force).toSend = [] := by
  simp [broadcast_events]

/-- Claim C4: in a non-forced cycle with subscribers, when filtering against
the ledger leaves fewer than MIN_EVENTS unseen events, the coordinator falls
back to the full collected list, and what is sent is that list truncated to
the first MAX_EVENTS entries. -/
theorem c4_reset_policy (subs : List Nat) (deliverOk : Nat → Bool)
    (sent_ids : List String) (all_events : List Event)
    (hsubs : subs ≠ [])
    (hshort : (filterUnseen sent_ids all_events).length < MIN_EVENTS) :
    (broadcast_events subs deliverOk sent_ids all_events false).toSend =
      all_events.take MAX_EVENTS := by
  simp [broadcast_events, hsubs, hshort]

/-- Witness for claim C4: the single collected event was already delivered,
so zero unseen events remain and the full list is re-sent. -/
theorem c4_reset_policy_witness :
    (([1] : List Nat) ≠ [])
    ∧ (filterUnseen wSent [dupA]).length < MIN_EVENTS
    ∧ (broadcast_events [1] (fun _ => true) wSent [dupA] false).toSend =
        [dupA].take MAX_EVENTS :=
  ⟨by decide, by decide,
   c4_reset_policy [1] (fun _ => true) wSent [dupA] (by decide) (by decide)⟩

/-- Claim C5: a forced cycle leaves the persisted ledger exactly as it was,
and with subscribers present it dispatches the full collected list truncated
to MAX_EVENTS without consulting filterUnseen. -/
theorem c5_force_leaves_ledger (subs : List Nat) (deliverOk : Nat → Bool)
    (sent_ids : List String) (all_events : List Event) :
    (broadcast_events subs deliverOk sent_ids all_events true).ledger = sent_ids
    ∧ (subs ≠ [] →
        (broadcast_events subs deliverOk sent_ids all_events true).toSend =
          all_events.take MAX_EVENTS) :=
  ⟨broadcast_force_ledger subs deliverOk sent_ids all_events,
   fun h => broadcast_force_toSend subs deliverOk sent_ids all_events h⟩

/-- Witness for claim C5, scenario D: a forced cycle over a non-empty ledger
whose entry covers a dispatched event still leaves the ledger unchanged. -/
theorem c5_force_leaves_ledger_witness :
    (broadcast_events [1] (fun _ => true) wSent [dupA, dupB] true).ledger = wSent
    ∧ (broadcast_events [1] (fun _ => true) wSent [dupA, dupB] true).toSend =
        [dupA, dupB].take MAX_EVENTS :=
  ⟨(c5_force_leaves_ledger [1] (fun _ => true) wSent [dupA, dupB]).1,
   (c5_force_leaves_ledger [1] (fun _ => true) wSent [dupA, dupB]).2 (by decide)⟩

/-- Claim C10: an interval-mode tick whose wait has elapsed invokes the
broadcast with force set to true; consequently the ledger after the cycle
equals the ledger before it, and the list sent does not depend on the ledger
at all, so the same event ids can be re-sent on every interval. -/
theorem c10_interval_forces (intervalMins : Int) (subs : List Nat)
    (deliverOk : Nat → Bool) (sent_ids : List String) (all_events : List Event)
    (lastTs nowTs : Int)
    (hfire : lastTs + intervalMins * 60 - nowTs ≤ 0) :
    (interval_step intervalMins subs deliverOk sent_ids all_events lastTs nowTs).1 =
        some (broadcast_events subs deliverOk sent_ids all_events true)
    ∧ (broadcast_events subs deliverOk sent_ids all_events true).ledger = sent_ids
    ∧ ∀ other : List String,
        (broadcast_events subs deliverOk sent_ids all_events true).toSend =
          (broadcast_events subs deliverOk other all_events true).toSend := by
  refine ⟨by simp [interval_step, hfire], broadcast_force_ledger _ _ _ _, ?_⟩
  intro other
  by_cases h : subs = []
  · subst h
    rw [broadcast_empty_toSend, broadcast_empty_toSend]
  · rw [broadcast_force_toSend _ _ _ _ h, broadcast_force_toSend _ _ _ _ h]

/-- Witness for claim C10 at a one-minute interval whose wait has elapsed. -/
theorem c10_interval_forces_witness :
    ((0 : Int) + 1 * 60 - 60 ≤ 0)
    ∧ ((interval_step 1 [1] (fun _ => true) wSent [dupA] 0 60).1 =
          some (broadcast_events [1] (fun _ => true) wSent [dupA] true)
        ∧ (broadcast_events [1] (fun _ => true) wSent [dupA] true).ledger = wSent
        ∧ ∀ other : List String,
            (broadcast_events [1] (fun _ => true) wSent [dupA] true).toSend =
              (broadcast_events [1] (fun _ => true) other [dupA] true).toSend) :=
  ⟨by decide, c10_interval_forces 1 [1] (fun _ => true) wSent [dupA] 0 60 (by decide)⟩

/-- Once the persisted marker equals the day of every remaining tick, no
further cycle fires and the marker stays put. -/
theorem run_ticks_done (sndTotal : Nat) (d : String) (ticks : List Tick)
    (hd : ∀ t ∈ ticks, t.day = d) :
    run_ticks sndTotal ticks (some d) = (0, some d) := by
  induction ticks with
  | nil => rfl
  | cons t ts ih =>
    have htd : t.day = d := hd t (List.mem_cons_self _ _)
    have hstep : daily_tick sndTotal t (some d) = (false, some d) := by
      rw [daily_tick, if_neg]
      intro hc
      exact hc.2 (by rw [htd])
    rw [run_ticks]
    simp only [hstep]
    rw [ih (fun u hu => hd u (List.mem_cons_of_mem _ hu))]
    simp

/-- Claim C2: in daily mode, over any non-empty sequence of poll ticks of
one calendar day whose time-of-day has reached the send time, exactly one
broadcast cycle is invoked when the persisted marker is not already today;
and a scheduler starting with the persisted marker equal to today invokes
none, however many such ticks occur. -/
theorem c2_daily_single_fire (sndTotal : Nat) (d : String) (ticks : List Tick)
    (s0 : Option String)
    (hticks : ∀ t ∈ ticks, t.day = d ∧ sndTotal ≤ t.nowTotal) :
    (ticks ≠ [] → s0 ≠ some d → (run_ticks sndTotal ticks s0).1 = 1)
    ∧ (s0 = some d → (run_ticks sndTotal ticks s0).1 = 0) := by
  constructor
  · intro hne hs0
    match ticks, hticks with
    | t :: ts, hticks =>
      have h1 := hticks t (List.mem_cons_self _ _)
      have hfire : daily_tick sndTotal t s0 = (true, some t.day) := by
        rw [daily_tick, if_pos]
        exact ⟨h1.2, by rw [h1.1]; exact hs0⟩
      rw [run_ticks]
      simp only [hfire]
      rw [h1.1, run_ticks_done sndTotal d ts
        (fun u hu => (hticks u (List.mem_cons_of_mem _ hu)).1)]
      simp
  · intro hs0
    subst hs0
    rw [run_ticks_done sndTotal d ticks (fun u hu => (hticks u hu).1)]

/-- Witness for claim C2: two ticks past 08:00 on one day fire once from an
empty marker, and zero times from a marker already equal to that day. -/
theorem c2_daily_single_fire_witness :
    (∀ t ∈ wTicks, t.day = exDay ∧ 480 ≤ t.nowTotal)
    ∧ (run_ticks 480 wTicks none).1 = 1
    ∧ (run_ticks 480 wTicks (some exDay)).1 = 0 :=
  ⟨by decide,
   (c2_daily_single_fire 480 exDay wTicks none (by decide)).1 (by decide) (by decide),
   (c2_daily_single_fire 480 exDay wTicks (some exDay) (by decide)).2 (by decide)⟩

/-- Claim C3, counterexample: in the fired daily cycle with one subscriber,
the dispatch occurs and the marker write occurs, yet the position of the
marker write is not before the position of the dispatch — the marker is not
persisted before dispatch completes. -/
theorem c3_counterexample :
    Step.dispatch 7 ∈ daily_fire_trace [7]
    ∧ Step.markerWrite ∈ daily_fire_trace [7]
    ∧ ¬ (posOf Step.markerWrite (daily_fire_trace [7]) <
          posOf (Step.dispatch 7) (daily_fire_trace [7])) := by decide

/-- Claim C3, amended: the scheduler persists the last-fire marker only
after the broadcast cycle, dispatch included, has completed — the fired
daily trace is the broadcast trace followed by the marker write, the marker
write occurs nowhere inside the broadcast trace, and every subscriber has a
dispatch step inside it; a crash mid-dispatch therefore leaves the marker
unwritten and the same period fires again. -/
theorem c3_marker_after_dispatch (subs : List Nat) (h : subs ≠ []) :
    daily_fire_trace subs = broadcast_trace subs false ++ [Step.markerWrite]
    ∧ Step.markerWrite ∉ broadcast_trace subs false
    ∧ ∀ c ∈ subs, Step.dispatch c ∈ broadcast_trace subs false := by
  refine ⟨rfl, ?_, ?_⟩
  · rw [broadcast_trace, if_neg h]
    simp
  · intro c hc
    rw [broadcast_trace, if_neg h]
    refine List.mem_cons_of_mem _ (List.mem_append.mpr (Or.inl ?_))
    exact List.mem_map.mpr ⟨c, hc, rfl⟩

/-- Witness for the amended claim C3 with one subscriber. -/
theorem c3_marker_after_dispatch_witness :
    (([7] : List Nat) ≠ [])
    ∧ (daily_fire_trace [7] = broadcast_trace [7] false ++ [Step.markerWrite]
        ∧ Step.markerWrite ∉ broadcast_trace [7] false
        ∧ ∀ c ∈ ([7] : List Nat), Step.dispatch c ∈ broadcast_trace [7] false) :=
  ⟨by decide, c3_marker_after_dispatch [7] (by decide)⟩

/-- Claim C8, counterexample: the Luma adapter retains an entry whose title
is mostly Cyrillic — it fails the 85-percent-below-codepoint-1000 heuristic
— because the only title filters applied are non-emptiness and the keyword
test, which the embedded AI keyword satisfies. -/
theorem c8_counterexample :
    get_luma_events [QueryRes.ok [cyrEntry]] = Except.ok (luma_process [] [cyrEntry]).1
    ∧ (luma_process [] [cyrEntry]).1.length = 1
    ∧ latin_heuristic ((luma_process [] [cyrEntry]).1.headI.title) = false :=
  ⟨rfl, by decide, by decide⟩

/-- Claim C8, amended: the adapters apply only the keyword-based topical
filter is_tech together with field checks — no script or codepoint heuristic
— so a Luma entry with a non-empty stripped title, a non-empty url, a fresh
id and a keyword match is kept whatever the codepoints of its title. -/
theorem c8_keyword_filter_only (item : LumaEntry) (seen : List String)
    (htitle : stripStr item.name ≠ "")
    (hurl : item.url ≠ "")
    (hseen : item.api_id ∉ seen)
    (htech : is_tech (stripStr item.name) = true) :
    (luma_process seen [item]).1 = [luma_event item (stripStr item.name)] := by
  simp [luma_process, htitle, hurl, hseen, htech]

/-- Witness for the amended claim C8 at the mostly-Cyrillic entry. -/
theorem c8_keyword_filter_only_witness :
    stripStr cyrEntry.name ≠ ""
    ∧ cyrEntry.url ≠ ""
    ∧ cyrEntry.api_id ∉ ([] : List String)
    ∧ is_tech (stripStr cyrEntry.name) = true
    ∧ (luma_process [] [cyrEntry]).1 = [luma_event cyrEntry (stripStr cyrEntry.name)] :=
  ⟨by decide, by decide, by decide, by decide,
   c8_keyword_filter_only cyrEntry [] (by decide) (by decide) (by decide) (by decide)⟩

/-- Truth of an adapter result containing a value rather than an exception. -/
def neverRaised {α : Type} : Except Unit α → Bool
  | .ok _ => true
  | .error _ => false

/-- A try block whose except clause returns a value never propagates an
exception. -/
theorem catchE_ok_default {α : Type} (x : Except Unit α) (d : α) :
    neverRaised (catchE x (fun _ => Except.ok d)) = true := by
  cases x <;> rfl

/-- Claim C9: no adapter fetch function ever raises — every adapter returns
a value for every input, transport, parse and schema failures included —
and in the fan-out gathering loop a failing source contributes nothing
without aborting the cycle. -/
theorem c9_adapters_never_raise :
    (∀ qs, neverRaised (get_luma_events qs) = true)
    ∧ (∀ token q, neverRaised (get_eventbrite_events token q) = true)
    ∧ (∀ qs, neverRaised (get_meetup_events qs) = true)
    ∧ (∀ q, neverRaised (get_devto_events q) = true)
    ∧ (∀ hashF source q, neverRaised (fetch_rss_events hashF source q) = true)
    ∧ (∀ pre post : List (Except Unit (List Event)),
        gather (pre ++ Except.error () :: post) = gather (pre ++ post)) := by
  refine ⟨?_, ?_, ?_, ?_, ?_, ?_⟩
  · intro qs; exact catchE_ok_default _ _
  · intro token q
    rw [get_eventbrite_events]
    by_cases h : token = ""
    · rw [if_pos h]; rfl
    · rw [if_neg h]; exact catchE_ok_default _ _
  · intro qs; exact catchE_ok_default _ _
  · intro q; exact catchE_ok_default _ _
  · intro hashF source q; exact catchE_ok_default _ _
  · intro pre post
    induction pre with
    | nil => rfl
    | cons a pre ih =>
      cases a with
      | ok l => simp only [List.cons_append, gather, List.append_eq, ih]
      | error e => simp only [List.cons_append, gather, List.append_eq, ih]
